import Mathlib

/-!
Shallow embedding of the craftconnect authentication and portfolio subsystem.

Source files embedded:
* `apps/api/src/services/auth.service.ts` (`AuthService`)
* `apps/api/src/services/database.service.ts` (list-backed record store)
* the portfolio service (`PortfolioService.create` and `MAX_PORTFOLIO_ITEMS`)
* `apps/api/src/middleware/error.middleware.ts` (`authRateLimiter`)
* the OTP utilities (`isOtpExpired`)
* the error classes (`AppError` and subclasses)

Timestamps are modelled as natural numbers (milliseconds); the TypeScript
code stores ISO strings and compares them through `Date`, which is
order-isomorphic to the numeric model.  Externally generated values
(UUIDs from `generateId`, bcrypt hashes, JWT token pairs, OTP codes,
the current time) are passed as explicit parameters, and the external
verifiers (`comparePassword`, `verifyRefreshToken`) as function
parameters.  Each service method is state-passing: it returns the
`Except` outcome together with the store as left behind, including the
mutations performed before a throw.
-/

namespace CraftConnect

/-- `Role` enum from `types/index.ts`. -/
inductive Role where
  | PROVIDER
  | CUSTOMER
  | ADMIN
deriving DecidableEq

/-- `OtpType` enum from `types/index.ts`. -/
inductive OtpType where
  | LOGIN
  | REGISTER
  | RESET_PASSWORD
deriving DecidableEq

/-- `User` record from `types/index.ts`. -/
structure User where
  id : String
  email : Option String
  phoneNumber : Option String
  passwordHash : Option String
  role : Role
  isVerified : Bool
  createdAt : Nat
  updatedAt : Nat
  lastLoginAt : Option Nat
deriving DecidableEq

/-- `ServiceType` enum from `types/index.ts`. -/
inductive ServiceType where
  | CARPENTER
  | INTERIOR_DESIGNER
  | HOME_DECOR
  | FURNITURE_MAKER
deriving DecidableEq

/-- `Provider` record from `types/index.ts`. -/
structure Provider where
  id : String
  userId : String
  businessName : String
  slug : String
  serviceType : ServiceType
  city : String
  whatsappNumber : String
  experienceYears : Nat
  description : Option String
  isVerified : Bool
  isActive : Bool
  profileViews : Nat
  createdAt : Nat
  updatedAt : Nat
deriving DecidableEq

/-- `PortfolioItem` record from `types/index.ts`. -/
structure PortfolioItem where
  id : String
  providerId : String
  imageUrl : String
  description : Option String
  displayOrder : Nat
  createdAt : Nat
  updatedAt : Nat
  title : String
  category : Option String
deriving DecidableEq

/-- `CreatePortfolioItemInput` from `types/index.ts`. -/
structure CreatePortfolioItemInput where
  title : String
  category : Option String
  imgUrl : String
  description : Option String
deriving DecidableEq

/-- `Otp` record from `types/index.ts`. -/
structure Otp where
  id : String
  userId : String
  code : String
  type : OtpType
  expiresAt : Nat
  createdAt : Nat
  verified : Bool
  attempts : Nat
deriving DecidableEq

/-- `Session` record from `types/index.ts`. -/
structure Session where
  id : String
  userId : String
  refreshToken : String
  userAgent : Option String
  ipAddress : Option String
  expiresAt : Nat
  createdAt : Nat
deriving DecidableEq

/-- `TokenPair` from `types/auth.types.ts`. -/
structure TokenPair where
  accessToken : String
  refreshToken : String
deriving DecidableEq

/-- `JwtPayload` from `types/auth.types.ts`: `{userId, role}`. -/
structure JwtPayload where
  userId : String
  role : Role
deriving DecidableEq

/-- The sanitized user object returned inside `AuthResponse`. -/
structure UserView where
  id : String
  email : Option String
  phoneNumber : Option String
  role : Role
  isVerified : Bool
deriving DecidableEq

/-- `AuthResponse` from `types/auth.types.ts`. -/
structure AuthResponse where
  tokens : TokenPair
  user : UserView
  hasProvider : Bool
deriving DecidableEq

/-- `AppError` from `errors/AppError.ts`: message, HTTP status code, error code. -/
structure AppError where
  message : String
  statusCode : Nat
  code : String
deriving DecidableEq

/-- `UnauthorizedError` constructor: status 401, code UNAUTHORIZED. -/
def unauthorizedError (message : String) : AppError :=
  { message := message, statusCode := 401, code := "UNAUTHORIZED" }

/-- `NotFoundError` constructor: message `resource + " not found"`, status 404. -/
def notFoundError (resource : String) : AppError :=
  { message := resource ++ " not found", statusCode := 404, code := "NOT_FOUND" }

/-- `ConflictError` constructor: status 409, code CONFLICT. -/
def conflictError (message : String) : AppError :=
  { message := message, statusCode := 409, code := "CONFLICT" }

/-- `BadRequestError` constructor: status 400, code BAD_REQUEST. -/
def badRequestError (message : String) : AppError :=
  { message := message, statusCode := 400, code := "BAD_REQUEST" }

/-- `RateLimitError` constructor: status 429, code RATE_LIMIT_EXCEEDED. -/
def rateLimitError (message : String) : AppError :=
  { message := message, statusCode := 429, code := "RATE_LIMIT_EXCEEDED" }

/-- The JSON record store: one list per collection
(`database.service.ts` keeps each collection as an in-memory array). -/
structure Store where
  users : List User
  providers : List Provider
  portfolios : List PortfolioItem
  otps : List Otp
  sessions : List Session
deriving DecidableEq

/-- `db.findOne` / `db.findById`: first record satisfying the predicate
(`Array.prototype.find`). -/
def findFirst (p : α → Bool) : List α → Option α
  | [] => none
  | x :: xs => if p x then some x else findFirst p xs

/-- `db.update`: rewrite the first record matching the predicate with `f`
(the JS code merges the updates into the record at the first matching
index and leaves the array unchanged when no index matches). -/
def updateFirst (p : α → Bool) (f : α → α) : List α → List α
  | [] => []
  | x :: xs => if p x then f x :: xs else x :: updateFirst p f xs

/-- `db.delete`: remove the record at the first matching index
(`findIndex` + `splice`); no change when absent. -/
def removeFirst (p : α → Bool) : List α → List α
  | [] => []
  | x :: xs => if p x then xs else x :: removeFirst p xs

/-- JavaScript truthiness of an optional string: `null`/`undefined` and
the empty string are falsy. -/
def strTruthy : Option String → Bool
  | none => false
  | some s => s != ""

/-- `isOtpExpired` from the OTP utilities: `new Date() > expiry`,
i.e. strictly `now > expiry`. -/
def isOtpExpired (now expiry : Nat) : Bool :=
  expiry < now

/-- 30 days in milliseconds: `30 * 24 * 60 * 60 * 1000`, the session
expiry window hard-coded in `auth.service.ts`. -/
def thirtyDaysMs : Nat := 30 * 24 * 60 * 60 * 1000

/-- `AuthService.createSession` (no user agent / IP supplied by any caller):
a fresh `Session` expiring 30 days from `now`. -/
def mkSession (sid userId token : String) (now : Nat) : Session :=
  { id := sid, userId := userId, refreshToken := token,
    userAgent := none, ipAddress := none,
    expiresAt := now + thirtyDaysMs, createdAt := now }

/-- A fresh `Otp` record as built in `sendPhoneOtp` / `sendEmailOtp`:
`verified: false`, `attempts: 0`. -/
def mkOtp (oid userId code : String) (ty : OtpType) (expiresAt createdAt : Nat) : Otp :=
  { id := oid, userId := userId, code := code, type := ty,
    expiresAt := expiresAt, createdAt := createdAt,
    verified := false, attempts := 0 }

/-- The sanitized user view built in the auth responses. -/
def userView (u : User) (isVerified : Bool) : UserView :=
  { id := u.id, email := u.email, phoneNumber := u.phoneNumber,
    role := u.role, isVerified := isVerified }

/-- `AuthService.sendEmailOtp`: persist a fresh OTP of the given type for
the user.  The delivery itself is only logged in the source.
`oid` is the `generateId()` result, `code` the `generateOtp()` result,
`exp` the `getOtpExpiry()` result. -/
def sendEmailOtp (oid code : String) (exp now : Nat) (userId : String)
    (ty : OtpType) (s : Store) :
    Except AppError (String × String) × Store :=
  let rec0 := mkOtp oid userId code ty exp now
  (Except.ok ("OTP sent to email", oid), { s with otps := s.otps ++ [rec0] })

/-- `AuthService.sendPhoneOtp`: find the user by phone or create one on
the fly, then persist a fresh LOGIN OTP. -/
def sendPhoneOtp (uid oid code : String) (exp now : Nat) (phoneNumber : String)
    (s : Store) : Except AppError (String × String) × Store :=
  match findFirst (fun u => u.phoneNumber == some phoneNumber) s.users with
  | some user =>
    let rec0 := mkOtp oid user.id code OtpType.LOGIN exp now
    (Except.ok ("OTP sent successfully", oid), { s with otps := s.otps ++ [rec0] })
  | none =>
    let user : User :=
      { id := uid, email := none, phoneNumber := some phoneNumber,
        passwordHash := none, role := Role.PROVIDER, isVerified := false,
        createdAt := now, updatedAt := now, lastLoginAt := none }
    let s1 := { s with users := s.users ++ [user] }
    let rec0 := mkOtp oid uid code OtpType.LOGIN exp now
    (Except.ok ("OTP sent successfully", oid), { s1 with otps := s1.otps ++ [rec0] })

/-- `AuthService.registerWithEmail`.  `hash` is the `hashPassword`
result, `uid`/`sid`/`oid` the generated ids, `tok` the generated token
pair, `code` the generated OTP, `otpExp` the OTP expiry. -/
def registerWithEmail (hash uid sid oid code : String) (tok : TokenPair)
    (now otpExp : Nat) (email _password : String) (s : Store) :
    Except AppError AuthResponse × Store :=
  match findFirst (fun u => u.email == some email) s.users with
  | some _ => (Except.error (conflictError "Email already registered"), s)
  | none =>
    let user : User :=
      { id := uid, email := some email, phoneNumber := none,
        passwordHash := some hash, role := Role.PROVIDER, isVerified := false,
        createdAt := now, updatedAt := now, lastLoginAt := some now }
    let s1 := { s with users := s.users ++ [user] }
    let s2 := { s1 with sessions := s1.sessions ++ [mkSession sid uid tok.refreshToken now] }
    let s3 := (sendEmailOtp oid code otpExp now uid OtpType.REGISTER s2).2
    let hasP := (findFirst (fun p => p.userId == uid) s3.providers).isSome
    (Except.ok { tokens := tok, user := userView user false, hasProvider := hasP }, s3)

/-- `AuthService.loginWithEmail`.  `cmp` is `comparePassword` (bcrypt),
`tok` the generated token pair, `sid` the generated session id.
`if (!user.passwordHash)` in the source is JavaScript truthiness, so a
`null` hash and an empty-string hash both take the phone-OTP branch. -/
def loginWithEmail (cmp : String → String → Bool) (tok : TokenPair)
    (sid : String) (now : Nat) (email password : String) (s : Store) :
    Except AppError AuthResponse × Store :=
  match findFirst (fun u => u.email == some email) s.users with
  | none => (Except.error (unauthorizedError "Invalid email or password"), s)
  | some user =>
    if strTruthy user.passwordHash then
      if cmp password (user.passwordHash.getD "") then
        let users1 := updateFirst (fun u => u.id == user.id)
            (fun u => { u with lastLoginAt := some now }) s.users
        let s1 := { s with users := users1 }
        let s2 := { s1 with sessions := s1.sessions ++ [mkSession sid user.id tok.refreshToken now] }
        let hasP := (findFirst (fun p => p.userId == user.id) s2.providers).isSome
        (Except.ok { tokens := tok, user := userView user user.isVerified,
                     hasProvider := hasP }, s2)
      else
        (Except.error (unauthorizedError "Invalid email or password"), s)
    else
      (Except.error (unauthorizedError "Please login with phone OTP"), s)

/-- The `{phone?, email?}` identifier argument of `verifyOtp`. -/
structure Identifier where
  phone : Option String
  email : Option String
deriving DecidableEq

/-- The user lookup at the top of `verifyOtp`:
`if (identifier.phone) ... else if (identifier.email) ...` — JavaScript
truthiness, with phone taking precedence over email. -/
def findUserByIdentifier (ident : Identifier) (users : List User) : Option User :=
  if strTruthy ident.phone then
    findFirst (fun u => u.phoneNumber == ident.phone) users
  else if strTruthy ident.email then
    findFirst (fun u => u.email == ident.email) users
  else
    none

/-- The unverified OTPs of a user:
`db.findWhere('otps', o => o.userId === user.id && !o.verified)`. -/
def liveOtps (userId : String) (otps : List Otp) : List Otp :=
  otps.filter (fun o => o.userId == userId && !o.verified)

/-- First element of the stable descending-by-`createdAt` sort used in
`verifyOtp`: the earliest-listed record among those with maximal
`createdAt` (`Array.prototype.sort` is stable). -/
def pickLatest : List Otp → Option Otp
  | [] => none
  | o :: rest =>
    match pickLatest rest with
    | none => some o
    | some m => if o.createdAt < m.createdAt then some m else some o

/-- The OTP record a `verifyOtp` call would check the submitted code
against: the most recently created unverified OTP of the resolved user. -/
def selectedOtp (ident : Identifier) (s : Store) : Option Otp :=
  match findUserByIdentifier ident s.users with
  | none => none
  | some user => pickLatest (liveOtps user.id s.otps)

/-- `AuthService.verifyOtp`.  `sid` is the generated session id, `tok`
the generated token pair. -/
def verifyOtp (ident : Identifier) (otpCode sid : String) (tok : TokenPair)
    (now : Nat) (s : Store) : Except AppError AuthResponse × Store :=
  match findUserByIdentifier ident s.users with
  | none => (Except.error (notFoundError "User"), s)
  | some user =>
    match pickLatest (liveOtps user.id s.otps) with
    | none =>
      (Except.error (badRequestError "No OTP found. Please request a new one."), s)
    | some latestOtp =>
      if isOtpExpired now latestOtp.expiresAt then
        (Except.error (badRequestError "OTP has expired. Please request a new one."), s)
      else if 3 ≤ latestOtp.attempts then
        (Except.error (badRequestError "Too many failed attempts. Please request a new OTP."), s)
      else if latestOtp.code ≠ otpCode then
        let otps1 := updateFirst (fun o => o.id == latestOtp.id)
            (fun o => { o with attempts := o.attempts + 1 }) s.otps
        (Except.error (badRequestError "Invalid OTP"), { s with otps := otps1 })
      else
        let otps1 := updateFirst (fun o => o.id == latestOtp.id)
            (fun o => { o with verified := true }) s.otps
        let s1 := { s with otps := otps1 }
        let users1 := updateFirst (fun u => u.id == user.id)
            (fun u => { u with isVerified := true, lastLoginAt := some now,
                               updatedAt := now }) s1.users
        let s2 := { s1 with users := users1 }
        let s3 := { s2 with sessions := s2.sessions ++ [mkSession sid user.id tok.refreshToken now] }
        let hasP := (findFirst (fun p => p.userId == user.id) s3.providers).isSome
        (Except.ok { tokens := tok, user := userView user true, hasProvider := hasP }, s3)

/-- `AuthService.refreshToken`.  `verif` is `verifyRefreshToken`
(returns `none` exactly when the JWT verification throws), `tok` the
freshly generated token pair. -/
def refreshTokenOp (verif : String → Option JwtPayload) (tok : TokenPair)
    (now : Nat) (refreshToken : String) (s : Store) :
    Except AppError TokenPair × Store :=
  match verif refreshToken with
  | none => (Except.error (unauthorizedError "Invalid refresh token"), s)
  | some decoded =>
    match findFirst (fun ss => ss.refreshToken == refreshToken) s.sessions with
    | none => (Except.error (unauthorizedError "Session not found"), s)
    | some session =>
      if session.expiresAt < now then
        let sessions1 := removeFirst (fun ss => ss.id == session.id) s.sessions
        (Except.error (unauthorizedError "Session expired. Please login again."),
          { s with sessions := sessions1 })
      else
        match findFirst (fun u => u.id == decoded.userId) s.users with
        | none => (Except.error (unauthorizedError "User not found"), s)
        | some _user =>
          let sessions1 := updateFirst (fun ss => ss.id == session.id)
              (fun ss => { ss with refreshToken := tok.refreshToken,
                                   expiresAt := now + thirtyDaysMs }) s.sessions
          (Except.ok tok, { s with sessions := sessions1 })

/-- `AuthService.logout`: delete every session holding the token. -/
def logout (refreshToken : String) (s : Store) : Store :=
  { s with sessions := s.sessions.filter (fun ss => !(ss.refreshToken == refreshToken)) }

/-- `AuthService.logoutAll`: delete every session of the user. -/
def logoutAll (userId : String) (s : Store) : Store :=
  { s with sessions := s.sessions.filter (fun ss => !(ss.userId == userId)) }

/-- `AuthService.cleanupExpiredOtps`: bulk-delete OTPs past expiry. -/
def cleanupExpiredOtps (now : Nat) (s : Store) : Store :=
  { s with otps := s.otps.filter (fun o => !(o.expiresAt < now)) }

/-- `AuthService.cleanupExpiredSessions`: bulk-delete sessions past expiry. -/
def cleanupExpiredSessions (now : Nat) (s : Store) : Store :=
  { s with sessions := s.sessions.filter (fun ss => !(ss.expiresAt < now)) }

/-- `MAX_PORTFOLIO_ITEMS` from the portfolio service. -/
def MAX_PORTFOLIO_ITEMS : Nat := 10

/-- `data.category || null`: JavaScript `||` maps `undefined` and the
empty string to `null`. -/
def normalizeCategory : Option String → Option String
  | none => none
  | some c => if c = "" then none else some c

/-- `PortfolioService.create`.  `newId` is the `generateId()` result.
Looks up the caller's provider profile, enforces the 10-item cap, and
appends the new item with `displayOrder` equal to the current count. -/
def portfolioCreate (newId : String) (now : Nat) (userId : String)
    (data : CreatePortfolioItemInput) (s : Store) :
    Except AppError PortfolioItem × Store :=
  match findFirst (fun p => p.userId == userId) s.providers with
  | none => (Except.error (notFoundError "Provider profile. Please create one first."), s)
  | some provider =>
    let existingCount := (s.portfolios.filter (fun it => it.providerId == provider.id)).length
    if MAX_PORTFOLIO_ITEMS ≤ existingCount then
      (Except.error (badRequestError
        ("Maximum " ++ toString MAX_PORTFOLIO_ITEMS ++ " portfolio items allowed")), s)
    else
      let item : PortfolioItem :=
        { id := newId, providerId := provider.id, imageUrl := data.imgUrl,
          description := some (data.description.getD ""),
          displayOrder := existingCount, createdAt := now, updatedAt := now,
          title := data.title, category := normalizeCategory data.category }
      (Except.ok item, { s with portfolios := s.portfolios ++ [item] })

/-- One entry of the in-memory rate-limit store:
`{count, resetTime}` from `error.middleware.ts`. -/
structure RLEntry where
  count : Nat
  resetTime : Nat
deriving DecidableEq

/-- The in-memory rate-limit store, an association list keyed by
`auth:<ip>` / `<ip>` strings. -/
def RLStore := List (String × RLEntry)

/-- Lookup in the rate-limit store. -/
def rlLookup (key : String) : RLStore → Option RLEntry
  | [] => none
  | (k, e) :: rest => if k == key then some e else rlLookup key rest

/-- Write-through to the rate-limit store (`store[key] = entry`). -/
def rlSet (key : String) (entry : RLEntry) : RLStore → RLStore
  | [] => [(key, entry)]
  | (k, e) :: rest =>
    if k == key then (k, entry) :: rest else (k, e) :: rlSet key entry rest

/-- Outcome of one rate-limiter invocation: either the request is passed
through (with the `X-RateLimit-Remaining` header value) or rejected with
the `Retry-After` value (seconds) and the thrown `RateLimitError`. -/
inductive RLOutcome where
  | allowed (remaining : Nat)
  | rejected (retryAfter : Nat) (err : AppError)
deriving DecidableEq

/-- Whether the limiter passed the request through. -/
def RLOutcome.isAllowed : RLOutcome → Bool
  | .allowed _ => true
  | .rejected _ _ => false

/-- `Math.ceil(a / 1000)` for a nonnegative millisecond count. -/
def ceilSeconds (ms : Nat) : Nat := (ms + 999) / 1000

/-- `authRateLimiter` from `error.middleware.ts`: fixed window of
15 minutes and 10 requests, keyed `auth:<ip>`.  A missing entry or one
whose `resetTime < now` starts a fresh window with `count = 1`;
otherwise the count is incremented.  A count above 10 throws a
`RateLimitError` with `Retry-After = ceil((resetTime - now)/1000)`. -/
def authRateLimiter (ip : String) (now : Nat) (st : RLStore) : RLOutcome × RLStore :=
  let key := "auth:" ++ ip
  let windowMs := 15 * 60 * 1000
  let maxRequests := 10
  let entry :=
    match rlLookup key st with
    | none => { count := 1, resetTime := now + windowMs : RLEntry }
    | some e =>
      if e.resetTime < now then { count := 1, resetTime := now + windowMs : RLEntry }
      else { e with count := e.count + 1 }
  let st1 := rlSet key entry st
  if maxRequests < entry.count then
    let retryAfter := ceilSeconds (entry.resetTime - now)
    (RLOutcome.rejected retryAfter
      (rateLimitError ("Too many login attempts. Please try again in "
        ++ toString ((retryAfter + 59) / 60) ++ " minutes.")), st1)
  else
    (RLOutcome.allowed (maxRequests - entry.count), st1)

/-- Run a sequence of requests (their arrival times) from one IP through
`authRateLimiter`, threading the store. -/
def runAuthRequests (ip : String) : List Nat → RLStore → List RLOutcome × RLStore
  | [], st => ([], st)
  | t :: ts, st =>
    let (r, st1) := authRateLimiter ip t st
    let (rs, st2) := runAuthRequests ip ts st1
    (r :: rs, st2)

/-- One invocation of an `AuthService` public method, with every
externally generated input (ids, codes, tokens, timestamps, the bcrypt
comparator and the JWT verifier) carried as constructor data. -/
inductive AuthOp where
  | register (hash uid sid oid code : String) (tok : TokenPair)
      (now otpExp : Nat) (email password : String)
  | login (cmp : String → String → Bool) (tok : TokenPair)
      (sid : String) (now : Nat) (email password : String)
  | sendPhone (uid oid code : String) (exp now : Nat) (phoneNumber : String)
  | sendEmail (oid code : String) (exp now : Nat) (userId : String) (ty : OtpType)
  | verify (ident : Identifier) (otpCode sid : String) (tok : TokenPair) (now : Nat)
  | refresh (verif : String → Option JwtPayload) (tok : TokenPair)
      (now : Nat) (refreshToken : String)
  | doLogout (refreshToken : String)
  | doLogoutAll (userId : String)
  | cleanOtps (now : Nat)
  | cleanSessions (now : Nat)

/-- The store left behind by an operation (whether it succeeded or
threw). -/
def applyOp (op : AuthOp) (s : Store) : Store :=
  match op with
  | .register hash uid sid oid code tok now otpExp email password =>
    (registerWithEmail hash uid sid oid code tok now otpExp email password s).2
  | .login cmp tok sid now email password =>
    (loginWithEmail cmp tok sid now email password s).2
  | .sendPhone uid oid code exp now phoneNumber =>
    (sendPhoneOtp uid oid code exp now phoneNumber s).2
  | .sendEmail oid code exp now userId ty =>
    (sendEmailOtp oid code exp now userId ty s).2
  | .verify ident otpCode sid tok now =>
    (verifyOtp ident otpCode sid tok now s).2
  | .refresh verif tok now refreshToken =>
    (refreshTokenOp verif tok now refreshToken s).2
  | .doLogout refreshToken => logout refreshToken s
  | .doLogoutAll userId => logoutAll userId s
  | .cleanOtps now => cleanupExpiredOtps now s
  | .cleanSessions now => cleanupExpiredSessions now s

/-- Run a sequence of operations. -/
def applyOps (ops : List AuthOp) (s : Store) : Store :=
  ops.foldl (fun acc op => applyOp op acc) s

/-- The ids under which an operation creates fresh OTP records; these
come from `generateId()` (UUID v4), so they never collide with an
existing record's id. -/
def opNewOtpIds : AuthOp → List String
  | .register _ _ _ oid _ _ _ _ _ _ => [oid]
  | .sendPhone _ oid _ _ _ _ => [oid]
  | .sendEmail oid _ _ _ _ _ => [oid]
  | _ => []

/-- Every OTP record carrying the id `i` (if any) is marked verified. -/
def VerifiedAt (i : String) (s : Store) : Prop :=
  ∀ o ∈ s.otps, o.id = i → o.verified = true

/-! ## Helper lemmas about the record-store primitives -/

theorem findFirst_some_mem {p : α → Bool} {l : List α} {x : α}
    (h : findFirst p l = some x) : x ∈ l ∧ p x = true := by
  induction l with
  | nil => simp [findFirst] at h
  | cons y ys ih =>
    by_cases hy : p y = true
    · simp [findFirst, hy] at h
      subst h
      exact ⟨List.mem_cons_self _ _, hy⟩
    · simp [findFirst, hy] at h
      rcases ih h with ⟨hmem, hp⟩
      exact ⟨List.mem_cons_of_mem _ hmem, hp⟩

theorem findFirst_eq_none {p : α → Bool} {l : List α}
    (h : ∀ x ∈ l, p x = false) : findFirst p l = none := by
  induction l with
  | nil => rfl
  | cons y ys ih =>
    have hy := h y (List.mem_cons_self _ _)
    simp [findFirst, hy]
    exact ih (fun x hx => h x (List.mem_cons_of_mem _ hx))

theorem mem_updateFirst {p : α → Bool} {f : α → α} {l : List α} {x : α}
    (h : x ∈ updateFirst p f l) : x ∈ l ∨ ∃ y, y ∈ l ∧ p y = true ∧ x = f y := by
  induction l with
  | nil => simp [updateFirst] at h
  | cons y ys ih =>
    by_cases hy : p y = true
    · simp [updateFirst, hy] at h
      rcases h with h | h
      · exact Or.inr ⟨y, List.mem_cons_self _ _, hy, h⟩
      · exact Or.inl (List.mem_cons_of_mem _ h)
    · simp only [updateFirst, hy, if_false, Bool.false_eq_true, ite_false,
        List.mem_cons] at h
      rcases h with h | h
      · exact Or.inl (by simp [h])
      · rcases ih h with h' | ⟨z, hz, hpz, hxz⟩
        · exact Or.inl (List.mem_cons_of_mem _ h')
        · exact Or.inr ⟨z, List.mem_cons_of_mem _ hz, hpz, hxz⟩

theorem findFirst_isSome_of_mem (p : α → Bool) {l : List α} {x : α}
    (hx : x ∈ l) (hp : p x = true) : ∃ y, findFirst p l = some y := by
  induction l with
  | nil => simp at hx
  | cons z zs ih =>
    by_cases hz : p z = true
    · exact ⟨z, by simp [findFirst, hz]⟩
    · rcases List.mem_cons.mp hx with h | h
      · exact absurd (h ▸ hp) hz
      · rcases ih h with ⟨y, hy⟩
        exact ⟨y, by simp [findFirst, hz, hy]⟩

theorem pickLatest_mem {l : List Otp} {o : Otp} (h : pickLatest l = some o) :
    o ∈ l := by
  induction l with
  | nil => simp [pickLatest] at h
  | cons x xs ih =>
    simp only [pickLatest] at h
    cases hx : pickLatest xs with
    | none =>
      rw [hx] at h
      simp at h
      simp [h]
    | some m =>
      rw [hx] at h
      by_cases hc : x.createdAt < m.createdAt
      · simp [hc] at h
        exact List.mem_cons_of_mem _ (ih (h ▸ hx))
      · simp [hc] at h
        simp [h]

/-! ## Claim theorems -/

/-- Claim C8: `isOtpExpired(expiry)` is true exactly when the current
time is strictly greater than the expiry timestamp; in particular it is
false one second before expiry and at expiry itself, and true one second
after expiry. -/
theorem isOtpExpired_strict (now expiry : Nat) :
    (isOtpExpired now expiry = true ↔ expiry < now) ∧
    isOtpExpired (expiry - 1000) expiry = false ∧
    isOtpExpired expiry expiry = false ∧
    isOtpExpired (expiry + 1000) expiry = true := by
  refine ⟨?_, ?_, ?_, ?_⟩
  · simp [isOtpExpired]
  · simp only [isOtpExpired, decide_eq_false_iff_not, not_lt]
    exact Nat.sub_le _ _
  · simp [isOtpExpired]
  · simp [isOtpExpired]

/-- Claim C3: when the most-recently-created unverified, unexpired OTP
of the resolved user has an attempt counter of 3 or more, `verifyOtp`
fails with the lockout BadRequest for every submitted code (in
particular for the correct one), and leaves the store unchanged. -/
theorem verifyOtp_lockout (ident : Identifier) (otpCode sid : String)
    (tok : TokenPair) (now : Nat) (s : Store) (r : Otp)
    (hsel : selectedOtp ident s = some r)
    (hexp : isOtpExpired now r.expiresAt = false)
    (hatt : 3 ≤ r.attempts) :
    verifyOtp ident otpCode sid tok now s =
      (Except.error (badRequestError "Too many failed attempts. Please request a new OTP."), s) := by
  unfold selectedOtp at hsel
  cases hu : findUserByIdentifier ident s.users with
  | none => rw [hu] at hsel; simp at hsel
  | some user =>
    rw [hu] at hsel
    have hsel2 : pickLatest (liveOtps user.id s.otps) = some r := hsel
    unfold verifyOtp
    simp [hu, hsel2, hexp, hatt]

/-- Witness for C3: a user locked out after three failed attempts is
rejected even when submitting the stored code itself. -/
theorem verifyOtp_lockout_witness :
    verifyOtp ⟨some "9999", none⟩ "123456" "s1" ⟨"a", "r"⟩ 500
      ⟨[⟨"u1", none, some "9999", none, Role.PROVIDER, false, 0, 0, none⟩], [], [],
       [⟨"o1", "u1", "123456", OtpType.LOGIN, 1000, 0, false, 3⟩], []⟩ =
      (Except.error (badRequestError "Too many failed attempts. Please request a new OTP."),
       ⟨[⟨"u1", none, some "9999", none, Role.PROVIDER, false, 0, 0, none⟩], [], [],
        [⟨"o1", "u1", "123456", OtpType.LOGIN, 1000, 0, false, 3⟩], []⟩) :=
  verifyOtp_lockout ⟨some "9999", none⟩ "123456" "s1" ⟨"a", "r"⟩ 500
    ⟨[⟨"u1", none, some "9999", none, Role.PROVIDER, false, 0, 0, none⟩], [], [],
     [⟨"o1", "u1", "123456", OtpType.LOGIN, 1000, 0, false, 3⟩], []⟩
    ⟨"o1", "u1", "123456", OtpType.LOGIN, 1000, 0, false, 3⟩
    (by decide) (by decide) (by decide)

/-- Counterexample to claim C1 as stated: a phone-only account (no
password hash) makes `loginWithEmail` fail with the message
"Please login with phone OTP", which differs from
"Invalid email or password" — so the three failure cases do not all
carry identical message text. -/
theorem loginWithEmail_message_cex :
    (loginWithEmail (fun _ _ => false) ⟨"a", "r"⟩ "s1" 0 "a@b.com" "pw"
      ⟨[⟨"u1", some "a@b.com", some "9999", none, Role.PROVIDER, false, 0, 0, none⟩],
       [], [], [], []⟩).1 =
      Except.error (unauthorizedError "Please login with phone OTP") ∧
    unauthorizedError "Please login with phone OTP" ≠
      unauthorizedError "Invalid email or password" := by
  constructor
  · rfl
  · decide

/-- Claim C1 (amended): every failing `loginWithEmail` is an
Unauthorized (401) error; the unknown-email and wrong-password cases
carry the identical message "Invalid email or password", while the
phone-only case (no truthy password hash) instead says
"Please login with phone OTP".  In all three cases the store is left
unchanged. -/
theorem loginWithEmail_failure_modes (cmp : String → String → Bool)
    (tok : TokenPair) (sid : String) (now : Nat) (email password : String)
    (s : Store) :
    (findFirst (fun u => u.email == some email) s.users = none →
      loginWithEmail cmp tok sid now email password s =
        (Except.error (unauthorizedError "Invalid email or password"), s)) ∧
    (∀ u, findFirst (fun u => u.email == some email) s.users = some u →
      strTruthy u.passwordHash = false →
      loginWithEmail cmp tok sid now email password s =
        (Except.error (unauthorizedError "Please login with phone OTP"), s)) ∧
    (∀ u, findFirst (fun u => u.email == some email) s.users = some u →
      strTruthy u.passwordHash = true →
      cmp password (u.passwordHash.getD "") = false →
      loginWithEmail cmp tok sid now email password s =
        (Except.error (unauthorizedError "Invalid email or password"), s)) := by
  refine ⟨?_, ?_, ?_⟩
  · intro h
    unfold loginWithEmail
    simp [h]
  · intro u hu hhash
    unfold loginWithEmail
    simp [hu, hhash]
  · intro u hu hhash hcmp
    unfold loginWithEmail
    simp [hu, hhash, hcmp]

/-- Witness for the amended C1: the three failure cases evaluated on
concrete stores — unknown email, phone-only account, wrong password. -/
theorem loginWithEmail_failure_modes_witness :
    loginWithEmail (fun _ _ => false) ⟨"a", "r"⟩ "s1" 0 "a@b.com" "pw"
      ⟨[], [], [], [], []⟩ =
      (Except.error (unauthorizedError "Invalid email or password"),
       ⟨[], [], [], [], []⟩) ∧
    loginWithEmail (fun _ _ => false) ⟨"a", "r"⟩ "s1" 0 "a@b.com" "pw"
      ⟨[⟨"u1", some "a@b.com", some "9999", none, Role.PROVIDER, false, 0, 0, none⟩],
       [], [], [], []⟩ =
      (Except.error (unauthorizedError "Please login with phone OTP"),
       ⟨[⟨"u1", some "a@b.com", some "9999", none, Role.PROVIDER, false, 0, 0, none⟩],
        [], [], [], []⟩) ∧
    loginWithEmail (fun _ _ => false) ⟨"a", "r"⟩ "s1" 0 "a@b.com" "wrongpass"
      ⟨[⟨"u1", some "a@b.com", none, some "h1", Role.PROVIDER, false, 0, 0, none⟩],
       [], [], [], []⟩ =
      (Except.error (unauthorizedError "Invalid email or password"),
       ⟨[⟨"u1", some "a@b.com", none, some "h1", Role.PROVIDER, false, 0, 0, none⟩],
        [], [], [], []⟩) :=
  ⟨(loginWithEmail_failure_modes (fun _ _ => false) ⟨"a", "r"⟩ "s1" 0 "a@b.com" "pw"
      ⟨[], [], [], [], []⟩).1 (by decide),
   (loginWithEmail_failure_modes (fun _ _ => false) ⟨"a", "r"⟩ "s1" 0 "a@b.com" "pw"
      ⟨[⟨"u1", some "a@b.com", some "9999", none, Role.PROVIDER, false, 0, 0, none⟩],
       [], [], [], []⟩).2.1
      ⟨"u1", some "a@b.com", some "9999", none, Role.PROVIDER, false, 0, 0, none⟩
      (by decide) (by decide),
   (loginWithEmail_failure_modes (fun _ _ => false) ⟨"a", "r"⟩ "s1" 0 "a@b.com" "wrongpass"
      ⟨[⟨"u1", some "a@b.com", none, some "h1", Role.PROVIDER, false, 0, 0, none⟩],
       [], [], [], []⟩).2.2
      ⟨"u1", some "a@b.com", none, some "h1", Role.PROVIDER, false, 0, 0, none⟩
      (by decide) (by decide) rfl⟩

/-- Counterexample to claim C10 as stated: supplying an empty-string
phone together with an email does NOT ignore the email — JavaScript
truthiness treats `""` as absent, so the lookup falls through to the
email and finds the user (failing later with the no-OTP BadRequest),
whereas a phone-only lookup would have failed with NotFound. -/
theorem verifyOtp_identifier_cex :
    (verifyOtp ⟨some "", some "e@x.com"⟩ "1" "s1" ⟨"a", "r"⟩ 0
      ⟨[⟨"u1", some "e@x.com", none, none, Role.PROVIDER, false, 0, 0, none⟩],
       [], [], [], []⟩).1 =
      Except.error (badRequestError "No OTP found. Please request a new one.") ∧
    (verifyOtp ⟨some "", none⟩ "1" "s1" ⟨"a", "r"⟩ 0
      ⟨[⟨"u1", some "e@x.com", none, none, Role.PROVIDER, false, 0, 0, none⟩],
       [], [], [], []⟩).1 =
      Except.error (notFoundError "User") := by
  constructor
  · rfl
  · rfl

/-- Claim C10 (amended): `verifyOtp` resolves the user with phone
precedence under JavaScript truthiness — when a NON-EMPTY phone is
supplied the email is ignored entirely (any email value yields the same
outcome as no email), an empty-string phone counts as absent, and when
neither a non-empty phone nor a non-empty email is supplied the call
fails with NotFound leaving the store unchanged (no OTP read or
modified). -/
theorem verifyOtp_identifier_resolution (otpCode sid : String)
    (tok : TokenPair) (now : Nat) (s : Store) :
    (∀ p : String, p ≠ "" → ∀ em : Option String,
      verifyOtp ⟨some p, em⟩ otpCode sid tok now s =
        verifyOtp ⟨some p, none⟩ otpCode sid tok now s) ∧
    (∀ ident : Identifier, strTruthy ident.phone = false →
      strTruthy ident.email = false →
      verifyOtp ident otpCode sid tok now s =
        (Except.error (notFoundError "User"), s)) := by
  constructor
  · intro p hp em
    have hfind : findUserByIdentifier ⟨some p, em⟩ s.users =
        findUserByIdentifier ⟨some p, none⟩ s.users := by
      simp [findUserByIdentifier, strTruthy, hp]
    unfold verifyOtp
    rw [hfind]
  · intro ident hp he
    unfold verifyOtp
    have hfind : findUserByIdentifier ident s.users = none := by
      simp [findUserByIdentifier, hp, he]
    simp [hfind]

/-- Witness for the amended C10: with a non-empty phone the email is
ignored on a concrete store, and with two empty identifiers the call is
NotFound. -/
theorem verifyOtp_identifier_resolution_witness :
    verifyOtp ⟨some "9999", some "e@x.com"⟩ "1" "s1" ⟨"a", "r"⟩ 0
      ⟨[⟨"u1", some "e@x.com", none, none, Role.PROVIDER, false, 0, 0, none⟩],
       [], [], [], []⟩ =
      verifyOtp ⟨some "9999", none⟩ "1" "s1" ⟨"a", "r"⟩ 0
        ⟨[⟨"u1", some "e@x.com", none, none, Role.PROVIDER, false, 0, 0, none⟩],
         [], [], [], []⟩ ∧
    verifyOtp ⟨some "", some ""⟩ "1" "s1" ⟨"a", "r"⟩ 0
      ⟨[⟨"u1", some "e@x.com", none, none, Role.PROVIDER, false, 0, 0, none⟩],
       [], [], [], []⟩ =
      (Except.error (notFoundError "User"),
       ⟨[⟨"u1", some "e@x.com", none, none, Role.PROVIDER, false, 0, 0, none⟩],
        [], [], [], []⟩) :=
  ⟨(verifyOtp_identifier_resolution "1" "s1" ⟨"a", "r"⟩ 0
      ⟨[⟨"u1", some "e@x.com", none, none, Role.PROVIDER, false, 0, 0, none⟩],
       [], [], [], []⟩).1 "9999" (by decide) (some "e@x.com"),
   (verifyOtp_identifier_resolution "1" "s1" ⟨"a", "r"⟩ 0
      ⟨[⟨"u1", some "e@x.com", none, none, Role.PROVIDER, false, 0, 0, none⟩],
       [], [], [], []⟩).2 ⟨some "", some ""⟩ (by decide) (by decide)⟩

/-- Claim C5: `registerWithEmail` is atomic on its Conflict failure —
when a user with the email exists it fails with the Conflict error and
the store is bit-for-bit unchanged; when none exists (and the generated
user id is fresh, as UUIDs are) it succeeds with `hasProvider = false`
and the supplied token pair. -/
theorem registerWithEmail_conflict_atomic (hash uid sid oid code : String)
    (tok : TokenPair) (now otpExp : Nat) (email password : String) (s : Store) :
    ((∃ u ∈ s.users, u.email = some email) →
      registerWithEmail hash uid sid oid code tok now otpExp email password s =
        (Except.error (conflictError "Email already registered"), s)) ∧
    ((∀ u ∈ s.users, u.email ≠ some email) →
      (∀ p ∈ s.providers, p.userId ≠ uid) →
      (registerWithEmail hash uid sid oid code tok now otpExp email password s).1 =
        Except.ok { tokens := tok,
                    user := { id := uid, email := some email, phoneNumber := none,
                              role := Role.PROVIDER, isVerified := false },
                    hasProvider := false }) := by
  constructor
  · rintro ⟨u, hu, hmail⟩
    have hpu : (fun v : User => v.email == some email) u = true := by simp [hmail]
    obtain ⟨v, hv⟩ := findFirst_isSome_of_mem (fun v : User => v.email == some email) hu hpu
    unfold registerWithEmail
    simp [hv]
  · intro hnone hprov
    have hf : findFirst (fun v => v.email == some email) s.users = none :=
      findFirst_eq_none (fun u hu => by
        have := hnone u hu
        simpa using this)
    have hp : findFirst (fun p => p.userId == uid) s.providers = none :=
      findFirst_eq_none (fun p hp => by
        have := hprov p hp
        simpa using this)
    unfold registerWithEmail
    simp [hf, sendEmailOtp, hp, userView]

/-- Witness for C5: registering a duplicate email on a one-user store is
a Conflict that leaves the store unchanged, and registering a fresh
email on the empty store succeeds with `hasProvider = false`. -/
theorem registerWithEmail_conflict_atomic_witness :
    registerWithEmail "h1" "u2" "s2" "o2" "111111" ⟨"a", "r"⟩ 5 10 "a@b.com" "Secure123"
      ⟨[⟨"u1", some "a@b.com", none, some "h0", Role.PROVIDER, false, 0, 0, none⟩],
       [], [], [], []⟩ =
      (Except.error (conflictError "Email already registered"),
       ⟨[⟨"u1", some "a@b.com", none, some "h0", Role.PROVIDER, false, 0, 0, none⟩],
        [], [], [], []⟩) ∧
    (registerWithEmail "h1" "u2" "s2" "o2" "111111" ⟨"a", "r"⟩ 5 10 "a@b.com" "Secure123"
      ⟨[], [], [], [], []⟩).1 =
      Except.ok { tokens := ⟨"a", "r"⟩,
                  user := { id := "u2", email := some "a@b.com", phoneNumber := none,
                            role := Role.PROVIDER, isVerified := false },
                  hasProvider := false } :=
  ⟨(registerWithEmail_conflict_atomic "h1" "u2" "s2" "o2" "111111" ⟨"a", "r"⟩ 5 10
      "a@b.com" "Secure123"
      ⟨[⟨"u1", some "a@b.com", none, some "h0", Role.PROVIDER, false, 0, 0, none⟩],
       [], [], [], []⟩).1
      ⟨⟨"u1", some "a@b.com", none, some "h0", Role.PROVIDER, false, 0, 0, none⟩,
       by decide, by decide⟩,
   (registerWithEmail_conflict_atomic "h1" "u2" "s2" "o2" "111111" ⟨"a", "r"⟩ 5 10
      "a@b.com" "Secure123" ⟨[], [], [], [], []⟩).2
      (by intro u hu; simp at hu) (by intro p hp; simp at hp)⟩

/-- Removing by the id of a member removes it, given distinct ids. -/
theorem removeFirst_not_mem_of_nodup {l : List Session} {sess : Session}
    (hids : (l.map Session.id).Nodup) (hmem : sess ∈ l) :
    sess ∉ removeFirst (fun ss => ss.id == sess.id) l := by
  induction l with
  | nil => simp at hmem
  | cons x xs ih =>
    have hx_notin : x.id ∉ xs.map Session.id := (List.nodup_cons.mp hids).1
    have hnd : (xs.map Session.id).Nodup := (List.nodup_cons.mp hids).2
    by_cases hx : (x.id == sess.id) = true
    · have hxid : x.id = sess.id := by simpa using hx
      simp only [removeFirst, hx, if_true]
      intro hin
      exact hx_notin (hxid ▸ List.mem_map_of_mem Session.id hin)
    · have hxid : x.id ≠ sess.id := by simpa using hx
      have hne : sess ≠ x := fun h => hxid (h ▸ rfl)
      have hmem2 : sess ∈ xs := by
        rcases List.mem_cons.mp hmem with h | h
        · exact absurd h.symm hne.symm
        · exact h
      simp only [removeFirst, hx, Bool.false_eq_true, ite_false, List.mem_cons]
      rintro (h | h)
      · exact hne h
      · exact ih hnd hmem2 h

/-- Claim C6: when the refresh token verifies and matches a stored
session whose own expiry has passed, `refreshTokenOp` deletes that stale
session from the store and then fails with the Unauthorized
"Session expired" error — an error path that deliberately mutates state. -/
theorem refreshToken_expired_cleanup (verif : String → Option JwtPayload)
    (tok : TokenPair) (now : Nat) (t : String) (s : Store) (d : JwtPayload)
    (sess : Session)
    (hver : verif t = some d)
    (hfind : findFirst (fun ss => ss.refreshToken == t) s.sessions = some sess)
    (hexp : sess.expiresAt < now)
    (hids : (s.sessions.map Session.id).Nodup) :
    refreshTokenOp verif tok now t s =
      (Except.error (unauthorizedError "Session expired. Please login again."),
       { s with sessions := removeFirst (fun ss => ss.id == sess.id) s.sessions }) ∧
    sess ∉ (refreshTokenOp verif tok now t s).2.sessions := by
  have heq : refreshTokenOp verif tok now t s =
      (Except.error (unauthorizedError "Session expired. Please login again."),
       { s with sessions := removeFirst (fun ss => ss.id == sess.id) s.sessions }) := by
    unfold refreshTokenOp
    simp [hver, hfind, hexp]
  refine ⟨heq, ?_⟩
  rw [heq]
  exact removeFirst_not_mem_of_nodup hids (findFirst_some_mem hfind).1

/-- Witness for C6: a store whose only session expired at time 100 is
emptied by a `refreshTokenOp` call at time 200, which fails with the
session-expired Unauthorized error. -/
theorem refreshToken_expired_cleanup_witness :
    refreshTokenOp (fun _ => some ⟨"u1", Role.PROVIDER⟩) ⟨"a2", "r2"⟩ 200 "tokA"
      ⟨[], [], [], [], [⟨"sess1", "u1", "tokA", none, none, 100, 0⟩]⟩ =
      (Except.error (unauthorizedError "Session expired. Please login again."),
       ⟨[], [], [], [],
        removeFirst (fun ss => ss.id == Session.id ⟨"sess1", "u1", "tokA", none, none, 100, 0⟩)
          [⟨"sess1", "u1", "tokA", none, none, 100, 0⟩]⟩) ∧
    (⟨"sess1", "u1", "tokA", none, none, 100, 0⟩ : Session) ∉
      (refreshTokenOp (fun _ => some ⟨"u1", Role.PROVIDER⟩) ⟨"a2", "r2"⟩ 200 "tokA"
        ⟨[], [], [], [], [⟨"sess1", "u1", "tokA", none, none, 100, 0⟩]⟩).2.sessions :=
  refreshToken_expired_cleanup (fun _ => some ⟨"u1", Role.PROVIDER⟩) ⟨"a2", "r2"⟩ 200 "tokA"
    ⟨[], [], [], [], [⟨"sess1", "u1", "tokA", none, none, 100, 0⟩]⟩
    ⟨"u1", Role.PROVIDER⟩ ⟨"sess1", "u1", "tokA", none, none, 100, 0⟩
    rfl (by decide) (by decide) (by decide)

/-- Claim C9: `PortfolioService.create` enforces the 10-item cap — with
10 or more existing items for the caller's provider it fails with the
BadRequest naming the maximum and adds nothing; below the cap the new
item's `displayOrder` equals the count of existing items. -/
theorem portfolioCreate_cap (newId : String) (now : Nat) (userId : String)
    (data : CreatePortfolioItemInput) (s : Store) (provider : Provider)
    (hprov : findFirst (fun p => p.userId == userId) s.providers = some provider) :
    (MAX_PORTFOLIO_ITEMS ≤
        (s.portfolios.filter (fun it => it.providerId == provider.id)).length →
      portfolioCreate newId now userId data s =
        (Except.error (badRequestError "Maximum 10 portfolio items allowed"), s)) ∧
    ((s.portfolios.filter (fun it => it.providerId == provider.id)).length <
        MAX_PORTFOLIO_ITEMS →
      ∃ item, portfolioCreate newId now userId data s =
          (Except.ok item, { s with portfolios := s.portfolios ++ [item] }) ∧
        item.displayOrder =
          (s.portfolios.filter (fun it => it.providerId == provider.id)).length) := by
  constructor
  · intro h
    unfold portfolioCreate
    simp [hprov, h]
    rfl
  · intro h
    unfold portfolioCreate
    simp [hprov, Nat.not_le.mpr h]

/-- Witness for C9: with exactly 10 items the 11th create is rejected
with the cap message, and on an empty portfolio the created item gets
`displayOrder = 0`. -/
theorem portfolioCreate_cap_witness :
    portfolioCreate "new1" 7 "u1" ⟨"t", none, "img", none⟩
      ⟨[], [⟨"p1", "u1", "biz", "slug", ServiceType.CARPENTER, "city", "wa", 1, none,
             false, true, 0, 0, 0⟩],
       [⟨"i0", "p1", "u", none, 0, 0, 0, "t", none⟩,
        ⟨"i1", "p1", "u", none, 1, 0, 0, "t", none⟩,
        ⟨"i2", "p1", "u", none, 2, 0, 0, "t", none⟩,
        ⟨"i3", "p1", "u", none, 3, 0, 0, "t", none⟩,
        ⟨"i4", "p1", "u", none, 4, 0, 0, "t", none⟩,
        ⟨"i5", "p1", "u", none, 5, 0, 0, "t", none⟩,
        ⟨"i6", "p1", "u", none, 6, 0, 0, "t", none⟩,
        ⟨"i7", "p1", "u", none, 7, 0, 0, "t", none⟩,
        ⟨"i8", "p1", "u", none, 8, 0, 0, "t", none⟩,
        ⟨"i9", "p1", "u", none, 9, 0, 0, "t", none⟩], [], []⟩ =
      (Except.error (badRequestError "Maximum 10 portfolio items allowed"),
       ⟨[], [⟨"p1", "u1", "biz", "slug", ServiceType.CARPENTER, "city", "wa", 1, none,
              false, true, 0, 0, 0⟩],
        [⟨"i0", "p1", "u", none, 0, 0, 0, "t", none⟩,
         ⟨"i1", "p1", "u", none, 1, 0, 0, "t", none⟩,
         ⟨"i2", "p1", "u", none, 2, 0, 0, "t", none⟩,
         ⟨"i3", "p1", "u", none, 3, 0, 0, "t", none⟩,
         ⟨"i4", "p1", "u", none, 4, 0, 0, "t", none⟩,
         ⟨"i5", "p1", "u", none, 5, 0, 0, "t", none⟩,
         ⟨"i6", "p1", "u", none, 6, 0, 0, "t", none⟩,
         ⟨"i7", "p1", "u", none, 7, 0, 0, "t", none⟩,
         ⟨"i8", "p1", "u", none, 8, 0, 0, "t", none⟩,
         ⟨"i9", "p1", "u", none, 9, 0, 0, "t", none⟩], [], []⟩) ∧
    ∃ item, portfolioCreate "new1" 7 "u1" ⟨"t", none, "img", none⟩
        ⟨[], [⟨"p1", "u1", "biz", "slug", ServiceType.CARPENTER, "city", "wa", 1, none,
               false, true, 0, 0, 0⟩], [], [], []⟩ =
        (Except.ok item,
         ⟨[], [⟨"p1", "u1", "biz", "slug", ServiceType.CARPENTER, "city", "wa", 1, none,
                false, true, 0, 0, 0⟩], [] ++ [item], [], []⟩) ∧
      item.displayOrder = 0 :=
  ⟨(portfolioCreate_cap "new1" 7 "u1" ⟨"t", none, "img", none⟩
      ⟨[], [⟨"p1", "u1", "biz", "slug", ServiceType.CARPENTER, "city", "wa", 1, none,
             false, true, 0, 0, 0⟩],
       [⟨"i0", "p1", "u", none, 0, 0, 0, "t", none⟩,
        ⟨"i1", "p1", "u", none, 1, 0, 0, "t", none⟩,
        ⟨"i2", "p1", "u", none, 2, 0, 0, "t", none⟩,
        ⟨"i3", "p1", "u", none, 3, 0, 0, "t", none⟩,
        ⟨"i4", "p1", "u", none, 4, 0, 0, "t", none⟩,
        ⟨"i5", "p1", "u", none, 5, 0, 0, "t", none⟩,
        ⟨"i6", "p1", "u", none, 6, 0, 0, "t", none⟩,
        ⟨"i7", "p1", "u", none, 7, 0, 0, "t", none⟩,
        ⟨"i8", "p1", "u", none, 8, 0, 0, "t", none⟩,
        ⟨"i9", "p1", "u", none, 9, 0, 0, "t", none⟩], [], []⟩
      ⟨"p1", "u1", "biz", "slug", ServiceType.CARPENTER, "city", "wa", 1, none,
       false, true, 0, 0, 0⟩ (by decide)).1 (by decide),
   (portfolioCreate_cap "new1" 7 "u1" ⟨"t", none, "img", none⟩
      ⟨[], [⟨"p1", "u1", "biz", "slug", ServiceType.CARPENTER, "city", "wa", 1, none,
             false, true, 0, 0, 0⟩], [], [], []⟩
      ⟨"p1", "u1", "biz", "slug", ServiceType.CARPENTER, "city", "wa", 1, none,
       false, true, 0, 0, 0⟩ (by decide)).2 (by decide)⟩

/-- After rewriting (by id) the first session that holds token `t` with
a session that does not hold it, no session holds `t` any longer —
provided ids are distinct and `t` occurred at most once. -/
theorem rotation_aux (t : String) (f : Session → Session)
    (hf : ∀ ss, (f ss).refreshToken ≠ t) :
    ∀ (l : List Session) (sess : Session),
    (l.map Session.id).Nodup →
    findFirst (fun ss => ss.refreshToken == t) l = some sess →
    (l.filter (fun ss => ss.refreshToken == t)).length ≤ 1 →
    ∀ ss ∈ updateFirst (fun ss => ss.id == sess.id) f l, ss.refreshToken ≠ t := by
  intro l
  induction l with
  | nil => intro sess _ hfind; simp [findFirst] at hfind
  | cons x xs ih =>
    intro sess hnd hfind huniq ss hss
    have hx_notin : x.id ∉ xs.map Session.id := (List.nodup_cons.mp hnd).1
    have hnd2 : (xs.map Session.id).Nodup := (List.nodup_cons.mp hnd).2
    by_cases hx : (x.refreshToken == t) = true
    · have hsx : sess = x := by
        simp [findFirst, hx] at hfind
        exact hfind.symm
      subst hsx
      have hupd : updateFirst (fun z => z.id == sess.id) f (sess :: xs) =
          f sess :: xs := by
        simp [updateFirst]
      rw [hupd] at hss
      have hfempty : List.filter (fun z => z.refreshToken == t) xs = [] := by
        have hlen : (List.filter (fun z => z.refreshToken == t) (sess :: xs)).length =
            (List.filter (fun z => z.refreshToken == t) xs).length + 1 := by
          simp [List.filter_cons, hx]
        rw [hlen] at huniq
        have : (List.filter (fun z => z.refreshToken == t) xs).length = 0 := by omega
        exact List.length_eq_zero.mp this
      rcases List.mem_cons.mp hss with h | h
      · rw [h]; exact hf sess
      · intro habs
        have : ss ∈ List.filter (fun z => z.refreshToken == t) xs :=
          List.mem_filter.mpr ⟨h, by simp [habs]⟩
        rw [hfempty] at this
        simp at this
    · have hfind2 : findFirst (fun z => z.refreshToken == t) xs = some sess := by
        simpa [findFirst, hx] using hfind
      have hsmem : sess ∈ xs := (findFirst_some_mem hfind2).1
      have hxid : (x.id == sess.id) = false := by
        by_contra hcon
        have : x.id = sess.id := by
          cases hb : (x.id == sess.id) with
          | false => exact absurd hb hcon
          | true => exact of_decide_eq_true hb
        exact hx_notin (this ▸ List.mem_map_of_mem Session.id hsmem)
      have hupd : updateFirst (fun z => z.id == sess.id) f (x :: xs) =
          x :: updateFirst (fun z => z.id == sess.id) f xs := by
        simp [updateFirst, hxid]
      rw [hupd] at hss
      have huniq2 : (List.filter (fun z => z.refreshToken == t) xs).length ≤ 1 := by
        have : List.filter (fun z => z.refreshToken == t) (x :: xs) =
            List.filter (fun z => z.refreshToken == t) xs := by
          simp [List.filter_cons, hx]
        rwa [this] at huniq
      rcases List.mem_cons.mp hss with h | h
      · rw [h]
        intro habs
        rw [habs] at hx
        simp at hx
      · exact ih sess hnd2 hfind2 huniq2 ss h

/-- On a store none of whose sessions holds `t`, any `refreshTokenOp`
call with `t` fails with an Unauthorized (401) error. -/
theorem refreshTokenOp_unauthorized_of_no_session (verif2 : String → Option JwtPayload)
    (tok2 : TokenPair) (now2 : Nat) (t : String) (s0 : Store)
    (hnone : ∀ ss ∈ s0.sessions, ss.refreshToken ≠ t) :
    ∃ e : AppError, (refreshTokenOp verif2 tok2 now2 t s0).1 = Except.error e ∧
      e.statusCode = 401 ∧ e.code = "UNAUTHORIZED" := by
  have hfindnone : findFirst (fun ss => ss.refreshToken == t) s0.sessions = none :=
    findFirst_eq_none (fun ss hss => by
      have := hnone ss hss
      simpa using this)
  cases hv2 : verif2 t with
  | none =>
    refine ⟨unauthorizedError "Invalid refresh token", ?_, rfl, rfl⟩
    unfold refreshTokenOp
    simp [hv2]
  | some d2 =>
    refine ⟨unauthorizedError "Session not found", ?_, rfl, rfl⟩
    unfold refreshTokenOp
    simp [hv2, hfindnone]

/-- Claim C4: a successful `refreshTokenOp` overwrites the owning
session's stored refresh token (fresh 30-day expiry), after which no
session holds the old token string, and every subsequent
`refreshTokenOp` with the old string fails with an Unauthorized (401)
error.  Hypotheses: the old token verifies and belongs to exactly one
unexpired session, ids are distinct, and the freshly minted token
differs from the old string (JWTs embed the issue time). -/
theorem refreshToken_rotates (verif : String → Option JwtPayload)
    (tok : TokenPair) (now : Nat) (t : String) (s : Store) (d : JwtPayload)
    (sess : Session) (user : User)
    (hver : verif t = some d)
    (hfind : findFirst (fun ss => ss.refreshToken == t) s.sessions = some sess)
    (hexp : ¬ sess.expiresAt < now)
    (huser : findFirst (fun u => u.id == d.userId) s.users = some user)
    (hids : (s.sessions.map Session.id).Nodup)
    (huniq : (s.sessions.filter (fun ss => ss.refreshToken == t)).length ≤ 1)
    (hnew : tok.refreshToken ≠ t) :
    (refreshTokenOp verif tok now t s).1 = Except.ok tok ∧
    (∀ ss ∈ (refreshTokenOp verif tok now t s).2.sessions, ss.refreshToken ≠ t) ∧
    (∀ verif2 tok2 now2, ∃ e : AppError,
      (refreshTokenOp verif2 tok2 now2 t (refreshTokenOp verif tok now t s).2).1 =
        Except.error e ∧ e.statusCode = 401 ∧ e.code = "UNAUTHORIZED") := by
  have heq : refreshTokenOp verif tok now t s = (Except.ok tok, { s with sessions := updateFirst (fun ss => ss.id == sess.id) (fun ss => { ss with refreshToken := tok.refreshToken, expiresAt := now + thirtyDaysMs }) s.sessions }) := by
    unfold refreshTokenOp
    simp [hver, hfind, hexp, huser]
  have hall : ∀ ss ∈ (refreshTokenOp verif tok now t s).2.sessions,
      ss.refreshToken ≠ t := by
    rw [heq]
    exact rotation_aux t _ (fun _ => hnew) s.sessions sess hids hfind huniq
  refine ⟨by rw [heq], hall, ?_⟩
  intro verif2 tok2 now2
  exact refreshTokenOp_unauthorized_of_no_session verif2 tok2 now2 t
    (refreshTokenOp verif tok now t s).2 hall

/-- Witness for C4: rotating the only session's token succeeds, after
which replaying the old token string is rejected (session not found). -/
theorem refreshToken_rotates_witness :
    (refreshTokenOp (fun _ => some ⟨"u1", Role.PROVIDER⟩) ⟨"a2", "tokNew"⟩ 500 "tokOld"
      ⟨[⟨"u1", none, some "9999", none, Role.PROVIDER, false, 0, 0, none⟩], [], [], [],
       [⟨"sess1", "u1", "tokOld", none, none, 1000, 0⟩]⟩).1 =
      Except.ok ⟨"a2", "tokNew"⟩ ∧
    (refreshTokenOp (fun _ => some ⟨"u1", Role.PROVIDER⟩) ⟨"a3", "r3"⟩ 600 "tokOld"
      (refreshTokenOp (fun _ => some ⟨"u1", Role.PROVIDER⟩) ⟨"a2", "tokNew"⟩ 500 "tokOld"
        ⟨[⟨"u1", none, some "9999", none, Role.PROVIDER, false, 0, 0, none⟩], [], [], [],
         [⟨"sess1", "u1", "tokOld", none, none, 1000, 0⟩]⟩).2).1 =
      Except.error (unauthorizedError "Session not found") :=
  ⟨(refreshToken_rotates (fun _ => some ⟨"u1", Role.PROVIDER⟩) ⟨"a2", "tokNew"⟩ 500 "tokOld"
      ⟨[⟨"u1", none, some "9999", none, Role.PROVIDER, false, 0, 0, none⟩], [], [], [],
       [⟨"sess1", "u1", "tokOld", none, none, 1000, 0⟩]⟩
      ⟨"u1", Role.PROVIDER⟩ ⟨"sess1", "u1", "tokOld", none, none, 1000, 0⟩
      ⟨"u1", none, some "9999", none, Role.PROVIDER, false, 0, 0, none⟩
      rfl (by decide) (by decide) (by decide) (by decide) (by decide) (by decide)).1,
   rfl⟩

/-! ## How each operation transforms the `otps` collection -/

theorem otps_registerWithEmail (hash uid sid oid code : String) (tok : TokenPair)
    (now otpExp : Nat) (email password : String) (s : Store) :
    (registerWithEmail hash uid sid oid code tok now otpExp email password s).2.otps = s.otps ∨
    (registerWithEmail hash uid sid oid code tok now otpExp email password s).2.otps =
      s.otps ++ [mkOtp oid uid code OtpType.REGISTER otpExp now] := by
  unfold registerWithEmail sendEmailOtp
  cases hf : findFirst (fun u => u.email == some email) s.users with
  | some u => exact Or.inl rfl
  | none => exact Or.inr rfl

theorem otps_loginWithEmail (cmp : String → String → Bool) (tok : TokenPair)
    (sid : String) (now : Nat) (email password : String) (s : Store) :
    (loginWithEmail cmp tok sid now email password s).2.otps = s.otps := by
  unfold loginWithEmail
  cases hf : findFirst (fun u => u.email == some email) s.users with
  | none => rfl
  | some u =>
    cases h1 : strTruthy u.passwordHash with
    | false => simp [h1]
    | true =>
      cases h2 : cmp password (u.passwordHash.getD "") with
      | false => simp [h1, h2]
      | true => simp [h1, h2]

theorem otps_sendPhoneOtp (uid oid code : String) (exp now : Nat)
    (phoneNumber : String) (s : Store) :
    ∃ r : Otp, (sendPhoneOtp uid oid code exp now phoneNumber s).2.otps =
        s.otps ++ [r] ∧ r.id = oid := by
  unfold sendPhoneOtp
  cases hf : findFirst (fun u => u.phoneNumber == some phoneNumber) s.users with
  | some u => exact ⟨_, rfl, rfl⟩
  | none => exact ⟨_, rfl, rfl⟩

theorem otps_sendEmailOtp (oid code : String) (exp now : Nat) (userId : String)
    (ty : OtpType) (s : Store) :
    (sendEmailOtp oid code exp now userId ty s).2.otps =
      s.otps ++ [mkOtp oid userId code ty exp now] := rfl

theorem otps_verifyOtp (ident : Identifier) (otpCode sid : String)
    (tok : TokenPair) (now : Nat) (s : Store) :
    ∃ j : String,
      (verifyOtp ident otpCode sid tok now s).2.otps = s.otps ∨
      (verifyOtp ident otpCode sid tok now s).2.otps =
        updateFirst (fun o => o.id == j) (fun o => { o with attempts := o.attempts + 1 }) s.otps ∨
      (verifyOtp ident otpCode sid tok now s).2.otps =
        updateFirst (fun o => o.id == j) (fun o => { o with verified := true }) s.otps := by
  cases hu : findUserByIdentifier ident s.users with
  | none => exact ⟨"", Or.inl (by unfold verifyOtp; simp [hu])⟩
  | some user =>
    cases hl : pickLatest (liveOtps user.id s.otps) with
    | none => exact ⟨"", Or.inl (by unfold verifyOtp; simp [hu, hl])⟩
    | some latest =>
      cases he : isOtpExpired now latest.expiresAt with
      | true => exact ⟨"", Or.inl (by unfold verifyOtp; simp [hu, hl, he])⟩
      | false =>
        by_cases ha : 3 ≤ latest.attempts
        · exact ⟨"", Or.inl (by unfold verifyOtp; simp [hu, hl, he, ha])⟩
        · by_cases hc : latest.code = otpCode
          · exact ⟨latest.id, Or.inr (Or.inr (by unfold verifyOtp; simp [hu, hl, he, ha, hc]))⟩
          · exact ⟨latest.id, Or.inr (Or.inl (by unfold verifyOtp; simp [hu, hl, he, ha, hc]))⟩

theorem otps_refreshTokenOp (verif : String → Option JwtPayload) (tok : TokenPair)
    (now : Nat) (t : String) (s : Store) :
    (refreshTokenOp verif tok now t s).2.otps = s.otps := by
  unfold refreshTokenOp
  cases hv : verif t with
  | none => rfl
  | some d =>
    cases hf : findFirst (fun ss => ss.refreshToken == t) s.sessions with
    | none => rfl
    | some sess =>
      by_cases he : sess.expiresAt < now
      · simp [he]
      · simp only [he, if_false]
        cases hu : findFirst (fun u => u.id == d.userId) s.users with
        | none => rfl
        | some u => rfl

/-! ## Preservation of the verified flag -/

/-- Appending a record with a different id preserves `VerifiedAt`'s
list-level property. -/
theorem verified_append {i : String} {l : List Otp} {o2 : Otp}
    (h : ∀ o ∈ l, o.id = i → o.verified = true) (hne : o2.id ≠ i) :
    ∀ o ∈ l ++ [o2], o.id = i → o.verified = true := by
  intro o ho hid
  rcases List.mem_append.mp ho with h1 | h1
  · exact h o h1 hid
  · simp at h1
    subst h1
    exact absurd hid hne

/-- An id-preserving, verified-monotone rewrite of the first match
preserves the property. -/
theorem verified_updateFirst {i : String} {l : List Otp} (p : Otp → Bool)
    (f : Otp → Otp)
    (hid : ∀ o, (f o).id = o.id)
    (hmono : ∀ o, o.verified = true → (f o).verified = true)
    (h : ∀ o ∈ l, o.id = i → o.verified = true) :
    ∀ o ∈ updateFirst p f l, o.id = i → o.verified = true := by
  intro o ho hoid
  rcases mem_updateFirst ho with h1 | ⟨y, hy, _, hval⟩
  · exact h o h1 hoid
  · subst hval
    have hyid : y.id = i := by rw [hid y] at hoid; exact hoid
    exact hmono y (h y hy hyid)

/-- No operation of the service resets an OTP's `verified` flag: once
every record with id `i` is verified, that stays true across any
operation whose freshly created OTP ids avoid `i`. -/
theorem verifiedAt_applyOp (i : String) (op : AuthOp) (s : Store)
    (h : VerifiedAt i s) (hfresh : i ∉ opNewOtpIds op) :
    VerifiedAt i (applyOp op s) := by
  cases op with
  | register hash uid sid oid code tok now otpExp email password =>
    have hne : (mkOtp oid uid code OtpType.REGISTER otpExp now).id ≠ i := by
      simp only [opNewOtpIds, List.mem_singleton] at hfresh
      simpa [mkOtp] using fun hh => hfresh hh.symm
    intro o ho hid
    simp only [applyOp] at ho
    rcases otps_registerWithEmail hash uid sid oid code tok now otpExp email password s with
      heq | heq
    · rw [heq] at ho; exact h o ho hid
    · rw [heq] at ho
      exact verified_append h hne o ho hid
  | login cmp tok sid now email password =>
    intro o ho hid
    simp only [applyOp] at ho
    rw [otps_loginWithEmail cmp tok sid now email password s] at ho
    exact h o ho hid
  | sendPhone uid oid code exp now phoneNumber =>
    obtain ⟨r, heq, hrid⟩ := otps_sendPhoneOtp uid oid code exp now phoneNumber s
    have hne : r.id ≠ i := by
      simp only [opNewOtpIds, List.mem_singleton] at hfresh
      rw [hrid]
      exact fun hh => hfresh hh.symm
    intro o ho hid
    simp only [applyOp] at ho
    rw [heq] at ho
    exact verified_append h hne o ho hid
  | sendEmail oid code exp now userId ty =>
    have hne : (mkOtp oid userId code ty exp now).id ≠ i := by
      simp only [opNewOtpIds, List.mem_singleton] at hfresh
      simpa [mkOtp] using fun hh => hfresh hh.symm
    intro o ho hid
    simp only [applyOp] at ho
    rw [otps_sendEmailOtp oid code exp now userId ty s] at ho
    exact verified_append h hne o ho hid
  | verify ident otpCode sid tok now =>
    obtain ⟨j, hcase⟩ := otps_verifyOtp ident otpCode sid tok now s
    intro o ho hid
    simp only [applyOp] at ho
    rcases hcase with heq | heq | heq
    · rw [heq] at ho; exact h o ho hid
    · rw [heq] at ho
      exact verified_updateFirst (fun o => o.id == j)
        (fun o => { o with attempts := o.attempts + 1 })
        (fun o => rfl) (fun o hv => hv) h o ho hid
    · rw [heq] at ho
      exact verified_updateFirst (fun o => o.id == j)
        (fun o => { o with verified := true })
        (fun o => rfl) (fun o _ => rfl) h o ho hid
  | refresh verif tok now t =>
    intro o ho hid
    simp only [applyOp] at ho
    rw [otps_refreshTokenOp verif tok now t s] at ho
    exact h o ho hid
  | doLogout t =>
    intro o ho hid
    exact h o ho hid
  | doLogoutAll uid =>
    intro o ho hid
    exact h o ho hid
  | cleanOtps now =>
    intro o ho hid
    have ho2 : o ∈ s.otps := (List.mem_filter.mp ho).1
    exact h o ho2 hid
  | cleanSessions now =>
    intro o ho hid
    exact h o ho hid

/-- Preservation across a whole operation sequence. -/
theorem verifiedAt_applyOps (i : String) (ops : List AuthOp) (s : Store)
    (h : VerifiedAt i s) (hfresh : ∀ op ∈ ops, i ∉ opNewOtpIds op) :
    VerifiedAt i (applyOps ops s) := by
  induction ops generalizing s with
  | nil => simpa [applyOps] using h
  | cons op rest ih =>
    have h1 := verifiedAt_applyOp i op s h (hfresh op (List.mem_cons_self _ _))
    have h2 := ih (applyOp op s) h1 (fun o ho => hfresh o (List.mem_cons_of_mem _ ho))
    simpa [applyOps] using h2

/-- The OTP a `verifyOtp` call would check is always an unverified
member of the store. -/
theorem selectedOtp_unverified {ident : Identifier} {s : Store} {r : Otp}
    (hsel : selectedOtp ident s = some r) :
    r ∈ s.otps ∧ r.verified = false := by
  unfold selectedOtp at hsel
  cases hu : findUserByIdentifier ident s.users with
  | none => rw [hu] at hsel; simp at hsel
  | some user =>
    rw [hu] at hsel
    have hsel2 : pickLatest (liveOtps user.id s.otps) = some r := hsel
    have hmem := pickLatest_mem hsel2
    have hflt : r ∈ s.otps ∧ r.userId = user.id ∧ r.verified = false := by
      simpa [liveOtps] using hmem
    exact ⟨hflt.1, hflt.2.2⟩

/-- In a state where every record with id `i` is verified, no
`verifyOtp` call can select an OTP carrying id `i`. -/
theorem selectedOtp_avoids (i : String) (ident : Identifier) (s : Store)
    (h : VerifiedAt i s) :
    Option.all (fun o => o.id != i) (selectedOtp ident s) = true := by
  cases hsel : selectedOtp ident s with
  | none => rfl
  | some r =>
    obtain ⟨hmem, hunv⟩ := selectedOtp_unverified hsel
    simp only [Option.all]
    simp only [bne_iff_ne, ne_eq, decide_eq_true_eq]
    intro habs
    have := h r hmem habs
    rw [this] at hunv
    cases hunv

/-- Marking the unique record with a member's id verified makes every
record with that id verified. -/
theorem updateFirst_mark_verified {l : List Otp} {r : Otp}
    (hnd : (l.map Otp.id).Nodup) (hmem : r ∈ l) :
    ∀ o ∈ updateFirst (fun o => o.id == r.id) (fun o => { o with verified := true }) l,
      o.id = r.id → o.verified = true := by
  induction l with
  | nil => simp [updateFirst]
  | cons x xs ih =>
    have hx_notin : x.id ∉ xs.map Otp.id := (List.nodup_cons.mp hnd).1
    have hnd2 : (xs.map Otp.id).Nodup := (List.nodup_cons.mp hnd).2
    by_cases hx : (x.id == r.id) = true
    · have hxid : x.id = r.id := by simpa using hx
      simp only [updateFirst, hx, if_true]
      intro o ho hoid
      rcases List.mem_cons.mp ho with h1 | h1
      · rw [h1]
      · exfalso
        have : o.id ∈ xs.map Otp.id := List.mem_map_of_mem Otp.id h1
        rw [hoid, ← hxid] at this
        exact hx_notin this
    · have hxid : x.id ≠ r.id := by simpa using hx
      have hmem2 : r ∈ xs := by
        rcases List.mem_cons.mp hmem with h1 | h1
        · exact absurd (h1 ▸ rfl) (fun hh : r.id = x.id => hxid hh.symm)
        · exact h1
      simp only [updateFirst, hx, Bool.false_eq_true, ite_false]
      intro o ho hoid
      rcases List.mem_cons.mp ho with h1 | h1
      · exact absurd (h1 ▸ hoid) hxid
      · exact ih hnd2 hmem2 o h1 hoid

/-- A `verifyOtp` call submitting the live OTP's own code succeeds and
leaves a store in which every record with that OTP's id is verified. -/
theorem verifyOtp_success (ident : Identifier) (sid : String) (tok : TokenPair)
    (now : Nat) (s : Store) (r : Otp)
    (hnodup : (s.otps.map Otp.id).Nodup)
    (hsel : selectedOtp ident s = some r)
    (hexp : isOtpExpired now r.expiresAt = false)
    (hatt : r.attempts < 3) :
    (∃ resp, (verifyOtp ident r.code sid tok now s).1 = Except.ok resp) ∧
    VerifiedAt r.id (verifyOtp ident r.code sid tok now s).2 := by
  have hmem : r ∈ s.otps := (selectedOtp_unverified hsel).1
  unfold selectedOtp at hsel
  cases hu : findUserByIdentifier ident s.users with
  | none => rw [hu] at hsel; simp at hsel
  | some user =>
    rw [hu] at hsel
    have hsel2 : pickLatest (liveOtps user.id s.otps) = some r := hsel
    have hattn : ¬ 3 ≤ r.attempts := Nat.not_le.mpr hatt
    have heq : verifyOtp ident r.code sid tok now s =
        (Except.ok { tokens := tok, user := userView user true, hasProvider := (findFirst (fun p => p.userId == user.id) s.providers).isSome },
         { users := updateFirst (fun u => u.id == user.id) (fun u => { u with isVerified := true, lastLoginAt := some now, updatedAt := now }) s.users,
           providers := s.providers, portfolios := s.portfolios,
           otps := updateFirst (fun o => o.id == r.id) (fun o => { o with verified := true }) s.otps,
           sessions := s.sessions ++ [mkSession sid user.id tok.refreshToken now] }) := by
      unfold verifyOtp
      simp [hu, hsel2, hexp, hattn]
    constructor
    · rw [heq]
      exact ⟨_, rfl⟩
    · rw [heq]
      intro o ho hid
      exact updateFirst_mark_verified hnodup hmem o ho hid

/-- Claim C2: OTPs are single-use.  A `verifyOtp` that accepts the live
OTP `r` (correct code, unexpired, under the attempt cap) succeeds, and
after any further sequence of service operations (whose freshly
generated OTP ids avoid `r.id`, as UUIDs do), no `verifyOtp` call for
any identifier can ever select the record `r` again: only unverified
OTPs are ever selected and no operation resets `verified` to false. -/
theorem otp_single_use (ident : Identifier) (sid : String) (tok : TokenPair)
    (now : Nat) (s : Store) (r : Otp)
    (hnodup : (s.otps.map Otp.id).Nodup)
    (hsel : selectedOtp ident s = some r)
    (hexp : isOtpExpired now r.expiresAt = false)
    (hatt : r.attempts < 3)
    (ops : List AuthOp)
    (hfresh : ∀ op ∈ ops, r.id ∉ opNewOtpIds op)
    (ident2 : Identifier) :
    (∃ resp, (verifyOtp ident r.code sid tok now s).1 = Except.ok resp) ∧
    Option.all (fun o => o.id != r.id)
      (selectedOtp ident2 (applyOps ops (verifyOtp ident r.code sid tok now s).2)) = true := by
  obtain ⟨hok, hver⟩ := verifyOtp_success ident sid tok now s r hnodup hsel hexp hatt
  refine ⟨hok, ?_⟩
  have hall : VerifiedAt r.id (applyOps ops (verifyOtp ident r.code sid tok now s).2) :=
    verifiedAt_applyOps r.id ops _ hver hfresh
  exact selectedOtp_avoids r.id ident2 _ hall

/-- Witness for C2: a correct OTP submission succeeds, and after a
cleanup sweep the spent record can no longer be selected. -/
theorem otp_single_use_witness :
    Option.all (fun o => o.id != Otp.id ⟨"o1", "u1", "123456", OtpType.LOGIN, 1000, 0, false, 0⟩)
      (selectedOtp ⟨some "9999", none⟩
        (applyOps [AuthOp.cleanOtps 700]
          (verifyOtp ⟨some "9999", none⟩
            (Otp.code ⟨"o1", "u1", "123456", OtpType.LOGIN, 1000, 0, false, 0⟩) "s1" ⟨"a", "r"⟩ 500
            ⟨[⟨"u1", none, some "9999", none, Role.PROVIDER, false, 0, 0, none⟩], [], [],
             [⟨"o1", "u1", "123456", OtpType.LOGIN, 1000, 0, false, 0⟩], []⟩).2)) = true :=
  (otp_single_use ⟨some "9999", none⟩ "s1" ⟨"a", "r"⟩ 500
    ⟨[⟨"u1", none, some "9999", none, Role.PROVIDER, false, 0, 0, none⟩], [], [],
     [⟨"o1", "u1", "123456", OtpType.LOGIN, 1000, 0, false, 0⟩], []⟩
    ⟨"o1", "u1", "123456", OtpType.LOGIN, 1000, 0, false, 0⟩
    (by decide) (by decide) (by decide) (by decide)
    [AuthOp.cleanOtps 700] (by intro op hop; simp at hop; subst hop; simp [opNewOtpIds])
    ⟨some "9999", none⟩).2

/-- Counterexample to claim C7 as stated: eleven requests all inside one
window, the 11th arriving exactly at the window's reset instant — it is
rejected, but with `Retry-After = 0`, which is not a positive integer. -/
theorem authRateLimiter_retry_cex :
    ((runAuthRequests "1.2.3.4" [0, 0, 0, 0, 0, 0, 0, 0, 0, 0, 900000] []).1.take 10).all
        RLOutcome.isAllowed = true ∧
    (runAuthRequests "1.2.3.4" [0, 0, 0, 0, 0, 0, 0, 0, 0, 0, 900000] []).1.getLast? =
      some (RLOutcome.rejected 0
        (rateLimitError "Too many login attempts. Please try again in 0 minutes.")) := by
  constructor
  · rfl
  · rfl

/-- Inside an open window with count `c`, a run of requests that stays
at or before the reset time and keeps the count within the cap is fully
allowed and just increments the counter. -/
theorem runAuth_inWindow (ip : String) (ts : List Nat) (c R : Nat)
    (hcount : c + ts.length ≤ 10)
    (hR : ∀ t ∈ ts, ¬ R < t) :
    (∀ o ∈ (runAuthRequests ip ts [("auth:" ++ ip, ⟨c, R⟩)]).1, o.isAllowed = true) ∧
    (runAuthRequests ip ts [("auth:" ++ ip, ⟨c, R⟩)]).2 =
      [("auth:" ++ ip, ⟨c + ts.length, R⟩)] := by
  induction ts generalizing c with
  | nil => exact ⟨by simp [runAuthRequests], by simp [runAuthRequests]⟩
  | cons t ts2 ih =>
    have hnotR : ¬ R < t := hR t (List.mem_cons_self _ _)
    have hle : ¬ 10 < c + 1 := by
      simp only [List.length_cons] at hcount
      omega
    have hstep : authRateLimiter ip t [("auth:" ++ ip, ⟨c, R⟩)] =
        (RLOutcome.allowed (10 - (c + 1)), [("auth:" ++ ip, ⟨c + 1, R⟩)]) := by
      unfold authRateLimiter
      simp [rlLookup, rlSet, hnotR, hle]
    have hc2 : (c + 1) + ts2.length ≤ 10 := by
      simp only [List.length_cons] at hcount
      omega
    have ihr := ih (c + 1) hc2 (fun t2 ht2 => hR t2 (List.mem_cons_of_mem _ ht2))
    constructor
    · intro o ho
      simp only [runAuthRequests, hstep] at ho
      rcases List.mem_cons.mp ho with h1 | h1
      · rw [h1]; rfl
      · exact ihr.1 o h1
    · simp only [runAuthRequests, hstep]
      rw [ihr.2]
      simp only [List.length_cons]
      have harith : c + 1 + ts2.length = c + (ts2.length + 1) := by omega
      rw [harith]

/-- A run produces one outcome per request. -/
theorem runAuth_length (ip : String) (ts : List Nat) (st : RLStore) :
    (runAuthRequests ip ts st).1.length = ts.length := by
  induction ts generalizing st with
  | nil => rfl
  | cons t ts2 ih =>
    simp only [runAuthRequests, List.length_cons]
    rw [ih]

/-- Splitting a run of requests into two runs. -/
theorem runAuth_append (ip : String) (a b : List Nat) (st : RLStore) :
    runAuthRequests ip (a ++ b) st =
      ((runAuthRequests ip a st).1 ++ (runAuthRequests ip b (runAuthRequests ip a st).2).1,
       (runAuthRequests ip b (runAuthRequests ip a st).2).2) := by
  induction a generalizing st with
  | nil => simp [runAuthRequests]
  | cons t a2 ih =>
    simp only [List.cons_append, runAuthRequests, List.append_eq]
    rw [ih]

/-- Claim C7 (amended): eleven requests from one IP whose arrival times
all lie within the first request's 15-minute window (reset time
`t1 + 900000` ms) see the first ten allowed and the eleventh rejected
with `Retry-After = ceil((resetTime - now)/1000)`, which is at most 900
seconds and is positive whenever the eleventh request arrives strictly
before the reset instant (it is 0 exactly at the reset instant). -/
theorem authRateLimiter_eleventh (ip : String) (t1 : Nat) (ts : List Nat)
    (t11 : Nat)
    (hlen : ts.length = 9)
    (hts : ∀ t ∈ ts, t ≤ t1 + 900000)
    (h11 : t11 ≤ t1 + 900000)
    (h1le : t1 ≤ t11) :
    (runAuthRequests ip (t1 :: (ts ++ [t11])) []).1.length = 11 ∧
    (∀ o ∈ (runAuthRequests ip (t1 :: (ts ++ [t11])) []).1.take 10,
      o.isAllowed = true) ∧
    (runAuthRequests ip (t1 :: (ts ++ [t11])) []).1.getLast? =
      some (RLOutcome.rejected (ceilSeconds (t1 + 900000 - t11))
        (rateLimitError ("Too many login attempts. Please try again in "
          ++ toString ((ceilSeconds (t1 + 900000 - t11) + 59) / 60) ++ " minutes."))) ∧
    ceilSeconds (t1 + 900000 - t11) ≤ 900 ∧
    (t11 < t1 + 900000 → 0 < ceilSeconds (t1 + 900000 - t11)) := by
  have hstep1 : authRateLimiter ip t1 [] =
      (RLOutcome.allowed 9, [("auth:" ++ ip, ⟨1, t1 + 900000⟩)]) := by
    unfold authRateLimiter
    simp [rlLookup, rlSet]
  have hmid := runAuth_inWindow ip ts 1 (t1 + 900000)
    (by omega) (fun t ht => Nat.not_lt.mpr (hts t ht))
  have hstepLast : authRateLimiter ip t11 [("auth:" ++ ip, ⟨10, t1 + 900000⟩)] =
      (RLOutcome.rejected (ceilSeconds (t1 + 900000 - t11))
        (rateLimitError ("Too many login attempts. Please try again in "
          ++ toString ((ceilSeconds (t1 + 900000 - t11) + 59) / 60) ++ " minutes.")),
       [("auth:" ++ ip, ⟨11, t1 + 900000⟩)]) := by
    unfold authRateLimiter
    simp [rlLookup, rlSet, Nat.not_lt.mpr h11]
  have hrun : (runAuthRequests ip (t1 :: (ts ++ [t11])) []).1 =
      RLOutcome.allowed 9 :: ((runAuthRequests ip ts [("auth:" ++ ip, ⟨1, t1 + 900000⟩)]).1
        ++ [RLOutcome.rejected (ceilSeconds (t1 + 900000 - t11))
            (rateLimitError ("Too many login attempts. Please try again in "
              ++ toString ((ceilSeconds (t1 + 900000 - t11) + 59) / 60) ++ " minutes."))]) := by
    simp only [runAuthRequests, hstep1]
    rw [runAuth_append]
    rw [hmid.2]
    have h10 : (1 : Nat) + ts.length = 10 := by omega
    rw [h10]
    simp only [runAuthRequests, hstepLast]
  have hmidlen : (runAuthRequests ip ts [("auth:" ++ ip, ⟨1, t1 + 900000⟩)]).1.length = 9 := by
    have := runAuth_length ip ts [("auth:" ++ ip, ⟨1, t1 + 900000⟩)]
    omega
  refine ⟨?_, ?_, ?_, ?_, ?_⟩
  · rw [hrun]
    simp [hmidlen]
  · intro o ho
    rw [hrun] at ho
    have hlist : RLOutcome.allowed 9 ::
        ((runAuthRequests ip ts [("auth:" ++ ip, ⟨1, t1 + 900000⟩)]).1
          ++ [RLOutcome.rejected (ceilSeconds (t1 + 900000 - t11))
              (rateLimitError ("Too many login attempts. Please try again in "
                ++ toString ((ceilSeconds (t1 + 900000 - t11) + 59) / 60) ++ " minutes."))]) =
        (RLOutcome.allowed 9 :: (runAuthRequests ip ts [("auth:" ++ ip, ⟨1, t1 + 900000⟩)]).1)
          ++ [RLOutcome.rejected (ceilSeconds (t1 + 900000 - t11))
              (rateLimitError ("Too many login attempts. Please try again in "
                ++ toString ((ceilSeconds (t1 + 900000 - t11) + 59) / 60) ++ " minutes."))] := by
      simp
    rw [hlist] at ho
    have hlen10 : (RLOutcome.allowed 9 ::
        (runAuthRequests ip ts [("auth:" ++ ip, ⟨1, t1 + 900000⟩)]).1).length = 10 := by
      simp [hmidlen]
    rw [← hlen10] at ho
    rw [List.take_left] at ho
    rcases List.mem_cons.mp ho with h1 | h1
    · rw [h1]; rfl
    · exact hmid.1 o h1
  · rw [hrun]
    rw [show RLOutcome.allowed 9 ::
        ((runAuthRequests ip ts [("auth:" ++ ip, ⟨1, t1 + 900000⟩)]).1 ++ [RLOutcome.rejected (ceilSeconds (t1 + 900000 - t11)) (rateLimitError ("Too many login attempts. Please try again in " ++ toString ((ceilSeconds (t1 + 900000 - t11) + 59) / 60) ++ " minutes."))]) =
        (RLOutcome.allowed 9 :: (runAuthRequests ip ts [("auth:" ++ ip, ⟨1, t1 + 900000⟩)]).1) ++ [RLOutcome.rejected (ceilSeconds (t1 + 900000 - t11)) (rateLimitError ("Too many login attempts. Please try again in " ++ toString ((ceilSeconds (t1 + 900000 - t11) + 59) / 60) ++ " minutes."))] from by simp]
    exact List.getLast?_concat _
  · have hx : t1 + 900000 - t11 ≤ 900000 := by omega
    have : t1 + 900000 - t11 + 999 ≤ 900999 := by omega
    calc ceilSeconds (t1 + 900000 - t11) = (t1 + 900000 - t11 + 999) / 1000 := rfl
      _ ≤ 900999 / 1000 := Nat.div_le_div_right this
      _ = 900 := by norm_num
  · intro hlt
    have h1000 : 1000 ≤ t1 + 900000 - t11 + 999 := by omega
    have hdiv : 1000 / 1000 ≤ (t1 + 900000 - t11 + 999) / 1000 :=
      Nat.div_le_div_right h1000
    simpa [ceilSeconds] using hdiv

/-- Witness for the amended C7: eleven concrete requests inside one
window; the eleventh is rejected with `Retry-After = 900`, a positive
value, since it arrives strictly before the reset instant. -/
theorem authRateLimiter_eleventh_witness :
    (runAuthRequests "1.2.3.4"
        (0 :: ([10, 20, 30, 40, 50, 60, 70, 80, 90] ++ [100])) []).1.getLast? =
      some (RLOutcome.rejected 900
        (rateLimitError "Too many login attempts. Please try again in 15 minutes.")) ∧
    (0 : Nat) < 900 :=
  ⟨(authRateLimiter_eleventh "1.2.3.4" 0 [10, 20, 30, 40, 50, 60, 70, 80, 90] 100
      (by decide) (by decide) (by decide) (by decide)).2.2.1,
   (authRateLimiter_eleventh "1.2.3.4" 0 [10, 20, 30, 40, 50, 60, 70, 80, 90] 100
      (by decide) (by decide) (by decide) (by decide)).2.2.2.2 (by decide)⟩

end CraftConnect
